import Mathlib

/-!
Verification of the NovelAgent request-orchestration subsystem
(`generate.mjs`, multi-mode version).

The JavaScript source is shallowly embedded: JS numbers become `ℚ`
(with `Option ℚ` where `NaN`/`undefined` can flow), nullable fields
become `Option`, imperative field mutation becomes a chain of record
updates, and the one random draw (`Math.floor(Math.random() * 2 ** 32)`)
becomes an explicit `rand` argument.
-/

namespace NovelAgent

/-! ## Canvas normalizer (`prepareReferenceImage`) -/

/-- One entry of the fixed `LARGE_RESOLUTIONS` table. -/
structure Resolution where
  w : ℕ
  h : ℕ
  label : String
deriving DecidableEq

/-- The fixed canvas table from the source, in declaration order. -/
def LARGE_RESOLUTIONS : List Resolution :=
  [⟨1024, 1536, "portrait"⟩, ⟨1472, 1472, "square"⟩, ⟨1536, 1024, "landscape"⟩]

/-- Aspect ratio `res.w / res.h` of a canvas. -/
def ratio (res : Resolution) : ℚ := (res.w : ℚ) / (res.h : ℚ)

/-- The selection loop of `prepareReferenceImage`: walks the resolution list
keeping the current best canvas and best difference; `none` models the
initial `bestDiff = Infinity` (any real difference beats it). The update
uses strict `<`, so earlier canvases win ties. -/
def selectLoop (aspect : ℚ) : List Resolution → Resolution → Option ℚ → Resolution
  | [], best, _ => best
  | res :: rest, _, none => selectLoop aspect rest res (some |aspect - ratio res|)
  | res :: rest, best, some bd =>
      if |aspect - ratio res| < bd then
        selectLoop aspect rest res (some |aspect - ratio res|)
      else
        selectLoop aspect rest best (some bd)

/-- Canvas selection of `prepareReferenceImage`: `aspect = width / height`,
best starting at the first table entry, `bestDiff` at `Infinity`. -/
def selectResolution (width height : ℚ) : Resolution :=
  selectLoop (width / height) LARGE_RESOLUTIONS ⟨1024, 1536, "portrait"⟩ none

/-- C3: for every source image with a width and height, the canvas normalizer
picks, from the fixed list (portrait, square, landscape) in declaration order,
the canvas minimizing `|aspect − canvasAspect|`, with ties broken in favor of
the earlier canvas; determinism is immediate since `selectResolution` is a
function of the dimensions. -/
theorem canvas_selection_minimizes (width height : ℚ)
    (hw : 0 < width) (hh : 0 < height) :
    selectResolution width height ∈ LARGE_RESOLUTIONS ∧
    (∀ res ∈ LARGE_RESOLUTIONS,
      |width / height - ratio (selectResolution width height)| ≤
        |width / height - ratio res|) ∧
    (∃ i : ℕ, LARGE_RESOLUTIONS.get? i = some (selectResolution width height) ∧
      ∀ j < i, ∀ res, LARGE_RESOLUTIONS.get? j = some res →
        |width / height - ratio (selectResolution width height)| <
          |width / height - ratio res|) := by
  have hunfold : selectResolution width height =
      (if |width / height - ratio ⟨1472, 1472, "square"⟩| <
            |width / height - ratio ⟨1024, 1536, "portrait"⟩| then
        (if |width / height - ratio ⟨1536, 1024, "landscape"⟩| <
              |width / height - ratio ⟨1472, 1472, "square"⟩| then
          (⟨1536, 1024, "landscape"⟩ : Resolution)
        else ⟨1472, 1472, "square"⟩)
      else
        (if |width / height - ratio ⟨1536, 1024, "landscape"⟩| <
              |width / height - ratio ⟨1024, 1536, "portrait"⟩| then
          (⟨1536, 1024, "landscape"⟩ : Resolution)
        else ⟨1024, 1536, "portrait"⟩)) := by
    simp only [selectResolution, LARGE_RESOLUTIONS, selectLoop]
  rw [hunfold]
  split_ifs with h1 h2 h3
  · -- square beats portrait, landscape beats square: landscape selected
    refine ⟨by simp [LARGE_RESOLUTIONS], ?_, 2, by simp [LARGE_RESOLUTIONS], ?_⟩
    · intro res hres
      simp only [LARGE_RESOLUTIONS] at hres
      fin_cases hres <;> linarith
    · intro j hj res hres
      interval_cases j <;> simp [LARGE_RESOLUTIONS] at hres <;> subst hres <;> linarith
  · -- square beats portrait, landscape does not beat square: square selected
    refine ⟨by simp [LARGE_RESOLUTIONS], ?_, 1, by simp [LARGE_RESOLUTIONS], ?_⟩
    · intro res hres
      simp only [LARGE_RESOLUTIONS] at hres
      fin_cases hres <;> linarith
    · intro j hj res hres
      interval_cases j <;> simp [LARGE_RESOLUTIONS] at hres <;> subst hres <;> linarith
  · -- square does not beat portrait, landscape beats portrait: landscape selected
    refine ⟨by simp [LARGE_RESOLUTIONS], ?_, 2, by simp [LARGE_RESOLUTIONS], ?_⟩
    · intro res hres
      simp only [LARGE_RESOLUTIONS] at hres
      fin_cases hres <;> linarith
    · intro j hj res hres
      interval_cases j <;> simp [LARGE_RESOLUTIONS] at hres <;> subst hres <;> linarith
  · -- portrait keeps the lead: portrait selected
    refine ⟨by simp [LARGE_RESOLUTIONS], ?_, 0, by simp [LARGE_RESOLUTIONS], ?_⟩
    · intro res hres
      simp only [LARGE_RESOLUTIONS] at hres
      fin_cases hres <;> linarith
    · intro j hj res hres
      exact absurd hj (Nat.not_lt_zero j)

/-- C3 witness: a 640×480 image (aspect 4/3) selects the square 1472×1472
canvas, and the selected canvas minimizes the aspect difference there. -/
theorem canvas_selection_minimizes_witness :
    selectResolution 640 480 ∈ LARGE_RESOLUTIONS ∧
    ∀ res ∈ LARGE_RESOLUTIONS,
      |(640 : ℚ) / 480 - ratio (selectResolution 640 480)| ≤
        |(640 : ℚ) / 480 - ratio res| :=
  ⟨(canvas_selection_minimizes 640 480 (by norm_num) (by norm_num)).1,
   (canvas_selection_minimizes 640 480 (by norm_num) (by norm_num)).2.1⟩

/-! ## Request options (`parseArgs`) and payload shapes -/

/-- The option record accumulated by `parseArgs` (the fields consumed by the
payload builders and the mask/analyze pipeline). Nullable fields are `Option`;
numeric CLI fields are `ℚ`. -/
structure Opts where
  prompt : Option String
  negative : Option String
  refCaption : String
  strength : ℚ
  fidelity : ℚ
  infoExtracted : ℚ
  vibeStrengths : List ℚ
  vibeInfos : List ℚ
  magnitude : Option ℚ
  enhanceStrength : Option ℚ
  enhanceNoise : Option ℚ
  upscale : ℚ
  inpaintStrength : ℚ
  width : ℚ
  height : ℚ
  scale : ℚ
  steps : ℚ
  seed : Option ℕ
  cfgRescale : ℚ
  sampler : String
  noiseSchedule : String
  smea : Bool
  smeaDyn : Bool
  autoSmea : Bool

/-- The defaults assigned by `parseArgs` before flag processing. -/
def defaultOpts : Opts :=
  { prompt := none
    negative := none
    refCaption := "character&style"
    strength := 1
    fidelity := 0
    infoExtracted := 1
    vibeStrengths := []
    vibeInfos := []
    magnitude := none
    enhanceStrength := none
    enhanceNoise := none
    upscale := 1
    inpaintStrength := 7/10
    width := 832
    height := 1216
    scale := 6
    steps := 28
    seed := none
    cfgRescale := 2/5
    sampler := "k_euler_ancestral"
    noiseSchedule := "karras"
    smea := false
    smeaDyn := false
    autoSmea := true }

/-- JS `s || ""`: the empty string is falsy, so both `null` and `""` yield `""`. -/
def orEmpty : Option String → String
  | none => ""
  | some s => if s = "" then "" else s

theorem orEmpty_some (s : String) : orEmpty (some s) = s := by
  show (if s = "" then "" else s) = s
  split
  · next h => exact h.symm
  · rfl

/-- JS truthiness of a nullable string (`null` and `""` are falsy). -/
def jsTruthyStr : Option String → Bool
  | none => false
  | some s => !(s == "")

/-- The structured caption object of the v4 prompt protocol. -/
structure Caption where
  base_caption : String
  char_captions : List String
deriving DecidableEq

/-- The `v4_prompt` object. -/
structure V4Prompt where
  caption : Caption
  use_coords : Bool
  use_order : Bool
deriving DecidableEq

/-- The `v4_negative_prompt` object; also the element shape of
`director_reference_descriptions`. -/
structure V4NegativePrompt where
  caption : Caption
  legacy_uc : Bool
deriving DecidableEq

/-- The `parameters` sub-object of a generation request. Mode-specific fields
that the JS code attaches by mutation are `Option`, `none` meaning absent. -/
structure Params where
  params_version : ℕ
  width : ℚ
  height : ℚ
  scale : ℚ
  sampler : String
  steps : ℚ
  seed : ℕ
  n_samples : ℕ
  ucPreset : ℕ
  qualityToggle : Bool
  sm : Bool
  sm_dyn : Bool
  dynamic_thresholding : Bool
  cfg_rescale : ℚ
  noise_schedule : String
  normalize_reference_strength_multiple : Bool
  prefer_brownian : Bool
  v4_prompt : V4Prompt
  v4_negative_prompt : V4NegativePrompt
  negative_prompt : String
  director_reference_images : Option (List String) := none
  director_reference_descriptions : Option (List V4NegativePrompt) := none
  director_reference_information_extracted : Option (List ℚ) := none
  director_reference_strength_values : Option (List ℚ) := none
  director_reference_secondary_strength_values : Option (List ℚ) := none
  reference_image_multiple : Option (List String) := none
  reference_information_extracted_multiple : Option (List ℚ) := none
  reference_strength_multiple : Option (List ℚ) := none
  image : Option String := none
  mask : Option String := none
  strength : Option ℚ := none
  noise : Option ℚ := none
  extra_noise_seed : Option ℕ := none

/-- A full request payload for the image-generation endpoint. -/
structure Payload where
  input : Option String
  model : String
  action : String
  parameters : Params

/-- `baseParams(opts)`: the shared parameter constructor. The random draw for
a missing seed is the explicit `rand` argument. -/
def baseParams (opts : Opts) (rand : ℕ) : Params :=
  let seed := opts.seed.getD rand
  let negPrompt := orEmpty opts.negative
  let isHighRes : Bool := decide (opts.width * opts.height > 1024 * 1024)
  let sm := opts.smea
  let smDyn := if opts.autoSmea && isHighRes && !sm && !opts.smeaDyn then true else opts.smeaDyn
  { params_version := 3
    width := opts.width
    height := opts.height
    scale := opts.scale
    sampler := opts.sampler
    steps := opts.steps
    seed := seed
    n_samples := 1
    ucPreset := 0
    qualityToggle := true
    sm := sm
    sm_dyn := smDyn
    dynamic_thresholding := false
    cfg_rescale := opts.cfgRescale
    noise_schedule := opts.noiseSchedule
    normalize_reference_strength_multiple := true
    prefer_brownian := true
    v4_prompt :=
      { caption := { base_caption := orEmpty opts.prompt, char_captions := [] }
        use_coords := false
        use_order := true }
    v4_negative_prompt :=
      { caption := { base_caption := negPrompt, char_captions := [] }
        legacy_uc := false }
    negative_prompt := negPrompt }

/-- `buildGeneratePayload(opts, refBase64)`: text-to-image, attaching the five
precise-reference arrays only when `refBase64` is truthy. -/
def buildGeneratePayload (opts : Opts) (rand : ℕ) (refBase64 : Option String) : Payload :=
  let params := baseParams opts rand
  let params :=
    if jsTruthyStr refBase64 then
      { params with
        director_reference_images := some [refBase64.getD ""]
        director_reference_descriptions :=
          some [{ caption := { base_caption := opts.refCaption, char_captions := [] }
                  legacy_uc := false }]
        director_reference_information_extracted := some [opts.infoExtracted]
        director_reference_strength_values := some [opts.strength]
        director_reference_secondary_strength_values := some [opts.fidelity] }
    else params
  { input := opts.prompt
    model := "nai-diffusion-4-5-full"
    action := "generate"
    parameters := params }

/-- `buildVibePayload(opts, vibeBase64s)`: one entry per vibe image, with the
per-image strength defaulting to 0.6 and the per-image info value to 1 when
the corresponding flag was not supplied (`??` fires on a missing index). -/
def buildVibePayload (opts : Opts) (rand : ℕ) (vibeBase64s : List String) : Payload :=
  let params := baseParams opts rand
  let strengths := (List.range vibeBase64s.length).map
    (fun i => (opts.vibeStrengths.get? i).getD (3/5))
  let infos := (List.range vibeBase64s.length).map
    (fun i => (opts.vibeInfos.get? i).getD 1)
  let params :=
    { params with
      reference_image_multiple := some vibeBase64s
      reference_information_extracted_multiple := some infos
      reference_strength_multiple := some strengths }
  { input := opts.prompt
    model := "nai-diffusion-4-5-full"
    action := "generate"
    parameters := params }

/-- `buildEnhancePayload(opts, imageBase64, imgWidth, imgHeight)`: img2img on
the decoded source dimensions; strength/noise from magnitude then field-wise
explicit overrides then defaults; `extra_noise_seed` tied to the seed; upscale
applied to the decoded dimensions last. -/
def buildEnhancePayload (opts : Opts) (rand : ℕ) (imageBase64 : String)
    (imgWidth imgHeight : ℚ) : Payload :=
  let p0 := baseParams opts rand
  let p1 := { p0 with width := imgWidth, height := imgHeight, image := some imageBase64 }
  let p2 :=
    match opts.magnitude with
    | some m => { p1 with strength := some m, noise := some (min (m * (3/10)) (3/10)) }
    | none => p1
  let p3 :=
    match opts.enhanceStrength with
    | some s => { p2 with strength := some s }
    | none => p2
  let p4 :=
    match opts.enhanceNoise with
    | some n2 => { p3 with noise := some n2 }
    | none => p3
  let p5 :=
    match p4.strength with
    | none => { p4 with strength := some (1/2) }
    | some _ => p4
  let p6 :=
    match p5.noise with
    | none => { p5 with noise := some (1/10) }
    | some _ => p5
  let p7 := { p6 with extra_noise_seed := some p6.seed }
  let p8 :=
    if opts.upscale > 1 then
      { p7 with width := imgWidth * opts.upscale, height := imgHeight * opts.upscale }
    else p7
  { input := opts.prompt
    model := "nai-diffusion-4-5-full"
    action := "img2img"
    parameters := p8 }

/-- `buildInpaintPayload(opts, imageBase64, maskBase64)`: infill with source
and mask bytes, the inpaint strength, and `extra_noise_seed` tied to the seed. -/
def buildInpaintPayload (opts : Opts) (rand : ℕ) (imageBase64 maskBase64 : String) : Payload :=
  let params := baseParams opts rand
  let params :=
    { params with
      image := some imageBase64
      mask := some maskBase64
      strength := some opts.inpaintStrength
      extra_noise_seed := some params.seed }
  { input := opts.prompt
    model := "nai-diffusion-4-5-full"
    action := "infill"
    parameters := params }

@[simp] theorem baseParams_strength (opts : Opts) (rand : ℕ) :
    (baseParams opts rand).strength = none := rfl

@[simp] theorem baseParams_noise (opts : Opts) (rand : ℕ) :
    (baseParams opts rand).noise = none := rfl

theorem baseParams_seed (opts : Opts) (rand : ℕ) :
    (baseParams opts rand).seed = opts.seed.getD rand := rfl

/-- The enhance builder leaves the prompt fields and the seed of `baseParams`
untouched and pins `extra_noise_seed` to that seed. -/
theorem enhance_stable_fields (opts : Opts) (rand : ℕ) (img : String) (iw ih : ℚ) :
    ((buildEnhancePayload opts rand img iw ih).parameters.v4_prompt
        = (baseParams opts rand).v4_prompt) ∧
    ((buildEnhancePayload opts rand img iw ih).parameters.negative_prompt
        = (baseParams opts rand).negative_prompt) ∧
    ((buildEnhancePayload opts rand img iw ih).parameters.v4_negative_prompt
        = (baseParams opts rand).v4_negative_prompt) ∧
    ((buildEnhancePayload opts rand img iw ih).parameters.seed
        = (baseParams opts rand).seed) ∧
    ((buildEnhancePayload opts rand img iw ih).parameters.extra_noise_seed
        = some (baseParams opts rand).seed) := by
  rcases hm : opts.magnitude with _ | m <;>
    rcases hs : opts.enhanceStrength with _ | s <;>
    rcases hn : opts.enhanceNoise with _ | n2 <;>
    simp only [buildEnhancePayload, hm, hs, hn, baseParams_strength, baseParams_noise] <;>
    split <;>
    exact ⟨rfl, rfl, rfl, rfl, rfl⟩

/-- Final width of the enhance payload. -/
theorem enhance_width (opts : Opts) (rand : ℕ) (img : String) (iw ih : ℚ) :
    (buildEnhancePayload opts rand img iw ih).parameters.width
      = if opts.upscale > 1 then iw * opts.upscale else iw := by
  rcases hm : opts.magnitude with _ | m <;>
    rcases hs : opts.enhanceStrength with _ | s <;>
    rcases hn : opts.enhanceNoise with _ | n2 <;>
    simp only [buildEnhancePayload, hm, hs, hn, baseParams_strength, baseParams_noise] <;>
    split <;>
    rfl

/-- Final height of the enhance payload. -/
theorem enhance_height (opts : Opts) (rand : ℕ) (img : String) (iw ih : ℚ) :
    (buildEnhancePayload opts rand img iw ih).parameters.height
      = if opts.upscale > 1 then ih * opts.upscale else ih := by
  rcases hm : opts.magnitude with _ | m <;>
    rcases hs : opts.enhanceStrength with _ | s <;>
    rcases hn : opts.enhanceNoise with _ | n2 <;>
    simp only [buildEnhancePayload, hm, hs, hn, baseParams_strength, baseParams_noise] <;>
    split <;>
    rfl

/-- Final strength of the enhance payload: explicit override, else magnitude,
else the 0.5 default. -/
theorem enhance_strength (opts : Opts) (rand : ℕ) (img : String) (iw ih : ℚ) :
    (buildEnhancePayload opts rand img iw ih).parameters.strength
      = some (opts.enhanceStrength.getD (opts.magnitude.getD (1/2))) := by
  rcases hm : opts.magnitude with _ | m <;>
    rcases hs : opts.enhanceStrength with _ | s <;>
    rcases hn : opts.enhanceNoise with _ | n2 <;>
    simp only [buildEnhancePayload, hm, hs, hn, baseParams_strength, baseParams_noise,
      Option.getD_some, Option.getD_none] <;>
    split <;>
    rfl

/-- Final noise of the enhance payload: explicit override, else the
magnitude-derived `min(m*0.3, 0.3)`, else the 0.1 default. -/
theorem enhance_noise (opts : Opts) (rand : ℕ) (img : String) (iw ih : ℚ) :
    (buildEnhancePayload opts rand img iw ih).parameters.noise
      = some (opts.enhanceNoise.getD
          (match opts.magnitude with
           | some m => min (m * (3/10)) (3/10)
           | none => 1/10)) := by
  rcases hm : opts.magnitude with _ | m <;>
    rcases hs : opts.enhanceStrength with _ | s <;>
    rcases hn : opts.enhanceNoise with _ | n2 <;>
    simp only [buildEnhancePayload, hm, hs, hn, baseParams_strength, baseParams_noise,
      Option.getD_some, Option.getD_none] <;>
    split <;>
    rfl

/-- C8: enhancement uses the decoded source dimensions as base geometry,
derives strength/noise from the magnitude scalar with explicit overrides
winning field-by-field, and multiplies both dimensions by an upscale
factor greater than one. -/
theorem enhance_payload_assembly (opts : Opts) (rand : ℕ) (img : String) (iw ih : ℚ) :
    (¬ opts.upscale > 1 →
      (buildEnhancePayload opts rand img iw ih).parameters.width = iw ∧
      (buildEnhancePayload opts rand img iw ih).parameters.height = ih) ∧
    (opts.upscale > 1 →
      (buildEnhancePayload opts rand img iw ih).parameters.width = iw * opts.upscale ∧
      (buildEnhancePayload opts rand img iw ih).parameters.height = ih * opts.upscale) ∧
    (∀ s, opts.enhanceStrength = some s →
      (buildEnhancePayload opts rand img iw ih).parameters.strength = some s) ∧
    (∀ n2, opts.enhanceNoise = some n2 →
      (buildEnhancePayload opts rand img iw ih).parameters.noise = some n2) ∧
    (∀ m, opts.magnitude = some m → opts.enhanceStrength = none →
      (buildEnhancePayload opts rand img iw ih).parameters.strength = some m) ∧
    (∀ m, opts.magnitude = some m → opts.enhanceNoise = none →
      (buildEnhancePayload opts rand img iw ih).parameters.noise
        = some (min (m * (3/10)) (3/10))) := by
  refine ⟨fun hu => ?_, fun hu => ?_, fun s hs => ?_, fun n2 hn => ?_,
    fun m hm hs => ?_, fun m hm hn => ?_⟩
  · rw [enhance_width, enhance_height, if_neg hu, if_neg hu]
    exact ⟨rfl, rfl⟩
  · rw [enhance_width, enhance_height, if_pos hu, if_pos hu]
    exact ⟨rfl, rfl⟩
  · rw [enhance_strength, hs, Option.getD_some]
  · rw [enhance_noise, hn, Option.getD_some]
  · rw [enhance_strength, hs, hm, Option.getD_none, Option.getD_some]
  · rw [enhance_noise, hn, hm, Option.getD_none]

/-- C8 witness: upscale 2 on a decoded 832×1216 source with magnitude 0.5
yields payload dimensions 1664×2432 and strength 0.5. -/
theorem enhance_payload_assembly_witness :
    ((buildEnhancePayload { defaultOpts with upscale := 2, magnitude := some (1/2) }
        0 "img" 832 1216).parameters.width = 1664) ∧
    ((buildEnhancePayload { defaultOpts with upscale := 2, magnitude := some (1/2) }
        0 "img" 832 1216).parameters.height = 2432) ∧
    ((buildEnhancePayload { defaultOpts with upscale := 2, magnitude := some (1/2) }
        0 "img" 832 1216).parameters.strength = some (1/2)) := by
  have h := enhance_payload_assembly
    { defaultOpts with upscale := 2, magnitude := some (1/2) } 0 "img" 832 1216
  have hu : ({ defaultOpts with upscale := 2, magnitude := some (1/2) } : Opts).upscale > 1 := by
    norm_num [defaultOpts]
  refine ⟨?_, ?_, ?_⟩
  · rw [(h.2.1 hu).1]
    norm_num [defaultOpts]
  · rw [(h.2.1 hu).2]
    norm_num [defaultOpts]
  · exact h.2.2.2.2.1 (1/2) rfl rfl

/-- C10: for every enhance and every inpaint payload, `extra_noise_seed`
equals the resolved seed of that payload, whether user-supplied or randomly
drawn. -/
theorem extra_noise_seed_matches_seed (opts : Opts) (rand : ℕ)
    (img msk : String) (iw ih : ℚ) :
    ((buildEnhancePayload opts rand img iw ih).parameters.extra_noise_seed
      = some (buildEnhancePayload opts rand img iw ih).parameters.seed) ∧
    ((buildInpaintPayload opts rand img msk).parameters.extra_noise_seed
      = some (buildInpaintPayload opts rand img msk).parameters.seed) ∧
    ((buildEnhancePayload opts rand img iw ih).parameters.seed
      = opts.seed.getD rand) ∧
    ((buildInpaintPayload opts rand img msk).parameters.seed
      = opts.seed.getD rand) := by
  have he := enhance_stable_fields opts rand img iw ih
  refine ⟨?_, rfl, ?_, rfl⟩
  · rw [he.2.2.2.2, he.2.2.2.1]
  · rw [he.2.2.2.1, baseParams_seed]

/-- C5: with no explicit SMEA mode forced and auto-selection enabled, the
assembler sets `sm_dyn` exactly when `width * height` exceeds the fixed
`1024 * 1024` threshold. -/
theorem sm_dyn_auto_toggle (opts : Opts) (rand : ℕ)
    (h1 : opts.smea = false) (h2 : opts.smeaDyn = false) (h3 : opts.autoSmea = true) :
    ((baseParams opts rand).sm_dyn = true ↔ opts.width * opts.height > 1024 * 1024) := by
  have hd : (baseParams opts rand).sm_dyn =
      (if opts.autoSmea && decide (opts.width * opts.height > 1024 * 1024)
            && !opts.smea && !opts.smeaDyn
       then true else opts.smeaDyn) := rfl
  rw [hd, h1, h2, h3]
  by_cases hp : opts.width * opts.height > 1024 * 1024
  · simp [hp]
  · simp [hp]

/-- C5 witness: 1472×1472 auto-enables `sm_dyn`; the default 832×1216 leaves
it disabled. -/
theorem sm_dyn_auto_toggle_witness :
    ((baseParams { defaultOpts with width := 1472, height := 1472 } 0).sm_dyn = true) ∧
    ((baseParams defaultOpts 0).sm_dyn = false) := by
  have hbig := sm_dyn_auto_toggle { defaultOpts with width := 1472, height := 1472 } 0 rfl rfl rfl
  have hsmall := sm_dyn_auto_toggle defaultOpts 0 rfl rfl rfl
  constructor
  · exact hbig.mpr (by norm_num [defaultOpts])
  · refine Bool.eq_false_iff.mpr fun hb => ?_
    have := hsmall.mp hb
    norm_num [defaultOpts] at this

theorem generate_stable_fields (opts : Opts) (rand : ℕ) (ref : Option String) :
    ((buildGeneratePayload opts rand ref).parameters.v4_prompt
        = (baseParams opts rand).v4_prompt) ∧
    ((buildGeneratePayload opts rand ref).parameters.negative_prompt
        = (baseParams opts rand).negative_prompt) ∧
    ((buildGeneratePayload opts rand ref).parameters.v4_negative_prompt
        = (baseParams opts rand).v4_negative_prompt) := by
  simp only [buildGeneratePayload]
  split <;> exact ⟨rfl, rfl, rfl⟩

/-- C2: every payload kind that carries a prompt duplicates the prompt text
identically into the flat `input` field and the structured v4 caption, and
duplicates the negative-prompt text identically into its flat field and its
structured caption. -/
theorem prompt_caption_duplication (opts : Opts) (rand : ℕ) (ref : Option String)
    (vibes : List String) (img msk : String) (iw ih : ℚ) (p : String)
    (hp : opts.prompt = some p) :
    ∀ pl ∈ [buildGeneratePayload opts rand ref, buildVibePayload opts rand vibes,
            buildEnhancePayload opts rand img iw ih, buildInpaintPayload opts rand img msk],
      pl.input = some p ∧
      pl.parameters.v4_prompt.caption.base_caption = p ∧
      pl.parameters.negative_prompt
        = pl.parameters.v4_negative_prompt.caption.base_caption := by
  have hbase : (baseParams opts rand).v4_prompt.caption.base_caption = p := by
    show orEmpty opts.prompt = p
    rw [hp, orEmpty_some]
  have hgen := generate_stable_fields opts rand ref
  have henh := enhance_stable_fields opts rand img iw ih
  intro pl hpl
  fin_cases hpl
  · refine ⟨hp, ?_, ?_⟩
    · rw [hgen.1]
      exact hbase
    · rw [hgen.2.1, hgen.2.2]
      rfl
  · exact ⟨hp, hbase, rfl⟩
  · refine ⟨hp, ?_, ?_⟩
    · rw [henh.1]
      exact hbase
    · rw [henh.2.1, henh.2.2.1]
      rfl
  · exact ⟨hp, hbase, rfl⟩

/-- C2 witness: a concrete generate payload carries the prompt in both
locations. -/
theorem prompt_caption_duplication_witness :
    ((buildGeneratePayload { defaultOpts with prompt := some "1girl" } 0 none).input
      = some "1girl") ∧
    ((buildGeneratePayload { defaultOpts with prompt := some "1girl" } 0 none).parameters.v4_prompt.caption.base_caption
      = "1girl") := by
  have h := prompt_caption_duplication { defaultOpts with prompt := some "1girl" } 0 none
    [] "a" "b" 1 1 "1girl" rfl
    (buildGeneratePayload { defaultOpts with prompt := some "1girl" } 0 none)
    (List.mem_cons_self _ _)
  exact ⟨h.1, h.2.1⟩

/-- C1: with one truthy reference image all five precise-reference arrays are
singletons; with `n` vibe images all three vibe arrays have length `n`, with
per-image strength defaulting positionally to 0.6 and per-image info to 1
exactly when the corresponding flag index is missing. -/
theorem reference_arrays_lockstep (opts : Opts) (rand : ℕ) (ref : String)
    (href : ref ≠ "") (vibes : List String) :
    ((buildGeneratePayload opts rand (some ref)).parameters.director_reference_images.map List.length
      = some 1) ∧
    ((buildGeneratePayload opts rand (some ref)).parameters.director_reference_descriptions.map List.length
      = some 1) ∧
    ((buildGeneratePayload opts rand (some ref)).parameters.director_reference_information_extracted.map List.length
      = some 1) ∧
    ((buildGeneratePayload opts rand (some ref)).parameters.director_reference_strength_values.map List.length
      = some 1) ∧
    ((buildGeneratePayload opts rand (some ref)).parameters.director_reference_secondary_strength_values.map List.length
      = some 1) ∧
    ((buildVibePayload opts rand vibes).parameters.reference_image_multiple.map List.length
      = some vibes.length) ∧
    (∃ st infos,
      (buildVibePayload opts rand vibes).parameters.reference_strength_multiple = some st ∧
      (buildVibePayload opts rand vibes).parameters.reference_information_extracted_multiple
        = some infos ∧
      st.length = vibes.length ∧ infos.length = vibes.length ∧
      (∀ i < vibes.length, st.get? i = some ((opts.vibeStrengths.get? i).getD (3/5))) ∧
      (∀ i < vibes.length, infos.get? i = some ((opts.vibeInfos.get? i).getD 1))) := by
  have htr : jsTruthyStr (some ref) = true := by
    simp [jsTruthyStr, href]
  refine ⟨?_, ?_, ?_, ?_, ?_, ?_, ?_⟩ <;>
    simp only [buildGeneratePayload, buildVibePayload, htr, if_true]
  · rfl
  · rfl
  · rfl
  · rfl
  · rfl
  · simp
  · refine ⟨_, _, rfl, rfl, by simp, by simp, ?_, ?_⟩
    · intro i hi
      rw [List.get?_map, List.get?_range hi]
      rfl
    · intro i hi
      rw [List.get?_map, List.get?_range hi]
      rfl

/-- C1 witness: one reference image gives singleton arrays; two vibe images
give arrays of length two, and with one supplied strength 0.9 the second
strength defaults positionally to 0.6. -/
theorem reference_arrays_lockstep_witness :
    ((buildGeneratePayload { defaultOpts with vibeStrengths := [9/10] } 0 (some "R")).parameters.director_reference_images.map List.length
      = some 1) ∧
    ((buildVibePayload { defaultOpts with vibeStrengths := [9/10] } 0 ["a", "b"]).parameters.reference_image_multiple.map List.length
      = some 2) ∧
    (∃ st,
      (buildVibePayload { defaultOpts with vibeStrengths := [9/10] } 0 ["a", "b"]).parameters.reference_strength_multiple
        = some st ∧
      st.get? 0 = some (9/10) ∧ st.get? 1 = some (3/5)) := by
  have h := reference_arrays_lockstep { defaultOpts with vibeStrengths := [9/10] } 0 "R"
    (by decide) ["a", "b"]
  obtain ⟨h1, _, _, _, _, h6, st, infos, hst, _, _, _, hget, _⟩ := h
  refine ⟨h1, h6, st, hst, ?_, ?_⟩
  · have := hget 0 (by norm_num)
    simpa using this
  · have := hget 1 (by norm_num)
    simpa using this

/-! ## Region mask synthesizer (`createMask`) -/

/-- A pixel-space rectangle painted onto the mask. -/
structure RegionRect where
  x : ℕ
  y : ℕ
  w : ℕ
  h : ℕ
deriving DecidableEq

/-- Modelled from the spec: the raster library (sharp) is not part of src.
A composited overlay rectangle covers an in-canvas pixel exactly when the
pixel lies inside it; paint falling outside the canvas is discarded by the
raster operation, which at in-canvas pixel coordinates needs no extra case. -/
def covers (r : RegionRect) (px py : ℕ) : Bool :=
  decide (r.x ≤ px ∧ px < r.x + r.w ∧ r.y ≤ py ∧ py < r.y + r.h)

/-- Modelled from the spec: sequential composite of solid-white rectangles
over a base pixel value, in listed order. -/
def compositePixel (base : ℕ) (overlays : List RegionRect) (px py : ℕ) : ℕ :=
  overlays.foldl (fun acc r => if covers r px py then 255 else acc) base

/-- The mask value `createMask` produces at an in-canvas pixel: black canvas
plus white rectangles when regions are supplied, an all-white canvas
otherwise, then a monochrome negation when `invert` is set. -/
def createMaskPixel (w h : ℕ) (rects : List RegionRect) (invert : Bool) (px py : ℕ) : ℕ :=
  let v := if rects.length > 0 then compositePixel 0 rects px py else 255
  if invert then 255 - v else v

theorem compositePixel_characterization (base : ℕ) (overlays : List RegionRect)
    (px py : ℕ) :
    compositePixel base overlays px py
      = if overlays.any (fun r => covers r px py) then 255 else base := by
  induction overlays generalizing base with
  | nil => simp [compositePixel]
  | cons r rest ih =>
    by_cases hc : covers r px py
    · simp only [compositePixel, List.foldl_cons, if_pos hc]
      have := ih 255
      simp only [compositePixel] at this
      rw [this]
      simp [hc]
    · simp only [compositePixel, List.foldl_cons, if_neg hc]
      have := ih base
      simp only [compositePixel] at this
      rw [this]
      simp [hc]

/-- C6: at every in-canvas pixel of the `w×h` canvas, the synthesized mask is
white when the rectangle list is empty; otherwise it is white exactly on the
pixels covered by some listed rectangle and black elsewhere; and `invert`
applies a monochrome negation as the final step. -/
theorem mask_synthesis_postcondition (w h : ℕ) (rects : List RegionRect)
    (invert : Bool) (px py : ℕ) (hx : px < w) (hy : py < h) :
    createMaskPixel w h rects invert px py
      = (if invert then 255 - (if rects = [] then 255
            else if ∃ r ∈ rects, covers r px py then 255 else 0)
         else (if rects = [] then 255
            else if ∃ r ∈ rects, covers r px py then 255 else 0)) := by
  have hbody : (if rects.length > 0 then compositePixel 0 rects px py else 255)
      = (if rects = [] then 255 else if ∃ r ∈ rects, covers r px py then 255 else 0) := by
    rcases rects with _ | ⟨r, rest⟩
    · simp
    · rw [if_pos (by simp), compositePixel_characterization,
        if_neg (List.cons_ne_nil r rest)]
      by_cases hex : ∃ x ∈ r :: rest, covers x px py = true
      · rw [if_pos (by simpa [List.any_eq_true] using hex), if_pos hex]
      · have hfalse : ¬ ((r :: rest).any (fun q => covers q px py) = true) := by
          simpa [List.any_eq_true] using hex
        rw [if_neg hfalse, if_neg hex]
  unfold createMaskPixel
  rw [hbody]

/-- C6 witness: an empty rectangle list yields white, a rectangle list yields
white inside and black outside the rectangle, and inversion negates. -/
theorem mask_synthesis_postcondition_witness :
    createMaskPixel 10 10 [] false 3 4 = 255 ∧
    createMaskPixel 10 10 [⟨1, 1, 2, 2⟩] false 1 1 = 255 ∧
    createMaskPixel 10 10 [⟨1, 1, 2, 2⟩] false 5 5 = 0 ∧
    createMaskPixel 10 10 [⟨1, 1, 2, 2⟩] true 1 1 = 0 := by
  refine ⟨?_, ?_, ?_, ?_⟩
  · rw [mask_synthesis_postcondition 10 10 [] false 3 4 (by norm_num) (by norm_num)]
    decide
  · rw [mask_synthesis_postcondition 10 10 [⟨1, 1, 2, 2⟩] false 1 1 (by norm_num) (by norm_num)]
    decide
  · rw [mask_synthesis_postcondition 10 10 [⟨1, 1, 2, 2⟩] false 5 5 (by norm_num) (by norm_num)]
    decide
  · rw [mask_synthesis_postcondition 10 10 [⟨1, 1, 2, 2⟩] true 1 1 (by norm_num) (by norm_num)]
    decide

/-- A parsed region component: `Number(str)` yields `none` for `NaN`, and a
missing destructured component (`undefined`) also acts as `NaN` under the
`isNaN` check and under arithmetic. -/
def regionComp (region : List (Option ℚ)) (i : ℕ) : Option ℚ :=
  (region.get? i).getD none

/-- The explicit validation in `createMask`: the four destructured components
`rx, ry, rw, rh` of one region string, with the `Invalid region` error thrown
when any of them is `NaN`. -/
def regionHasNaN (region : List (Option ℚ)) : Bool :=
  [regionComp region 0, regionComp region 1,
   regionComp region 2, regionComp region 3].any (fun c => c.isNone)

/-- Whether `createMask` throws its `Invalid region` error on the supplied
region list (the loop throws at the first offending region; an error is
thrown at all exactly when some region offends). -/
def invalidRegionThrow (regions : List (List (Option ℚ))) : Bool :=
  regions.any regionHasNaN

/-- Modelled from the claim wording, for comparison with the code: an
`InvalidRegionError` whenever a component parses to `NaN` or the width or
height component is negative. -/
def claimedInvalidRegion (region : List (Option ℚ)) : Bool :=
  regionHasNaN region
    || (match regionComp region 2 with
        | some q => decide (q < 0)
        | none => false)
    || (match regionComp region 3 with
        | some q => decide (q < 0)
        | none => false)

/-- Modelled from the claim wording: the claimed failure condition over the
whole region list. -/
def claimedInvalidThrow (regions : List (List (Option ℚ))) : Bool :=
  regions.any claimedInvalidRegion

/-- C7 counterexample: a single region `0,0,-5,10` has a negative width and
no NaN component, so the claimed failure condition holds but the explicit
`Invalid region` check in the code passes it (the later raster allocation
fails with a different error instead). -/
theorem invalid_region_counterexample :
    invalidRegionThrow [[some 0, some 0, some (-5), some 10]] = false ∧
    claimedInvalidThrow [[some 0, some 0, some (-5), some 10]] = true := by
  constructor
  · rfl
  · rfl

theorem regionHasNaN_iff (region : List (Option ℚ)) :
    regionHasNaN region = true ↔ ∃ i < 4, regionComp region i = none := by
  constructor
  · intro hr
    simp only [regionHasNaN, List.any_eq_true, List.mem_cons, List.mem_singleton,
      Option.isNone_iff_eq_none] at hr
    obtain ⟨c, hc, hnone⟩ := hr
    rcases hc with hc | hc | hc | hc | hfalse
    · exact ⟨0, by norm_num, by rw [← hc]; exact hnone⟩
    · exact ⟨1, by norm_num, by rw [← hc]; exact hnone⟩
    · exact ⟨2, by norm_num, by rw [← hc]; exact hnone⟩
    · exact ⟨3, by norm_num, by rw [← hc]; exact hnone⟩
    · simp at hfalse
  · rintro ⟨i, hi, hnone⟩
    simp only [regionHasNaN, List.any_eq_true, List.mem_cons, List.mem_singleton,
      Option.isNone_iff_eq_none]
    interval_cases i
    · exact ⟨regionComp region 0, Or.inl rfl, hnone⟩
    · exact ⟨regionComp region 1, Or.inr (Or.inl rfl), hnone⟩
    · exact ⟨regionComp region 2, Or.inr (Or.inr (Or.inl rfl)), hnone⟩
    · exact ⟨regionComp region 3, Or.inr (Or.inr (Or.inr (Or.inl rfl))), hnone⟩

/-- C7 amended: the `Invalid region` error fires exactly when some region has
a component that parses to `NaN` (or is missing); a region list free of NaN
and of negative dimensions is never rejected by this check, but negative
widths and heights alone are not caught by it. -/
theorem invalid_region_check_amended (regions : List (List (Option ℚ))) :
    (invalidRegionThrow regions = true
      ↔ ∃ region ∈ regions, ∃ i < 4, regionComp region i = none) ∧
    (claimedInvalidThrow regions = false → invalidRegionThrow regions = false) := by
  constructor
  · rw [invalidRegionThrow, List.any_eq_true]
    constructor
    · rintro ⟨region, hmem, hr⟩
      exact ⟨region, hmem, (regionHasNaN_iff region).mp hr⟩
    · rintro ⟨region, hmem, hr⟩
      exact ⟨region, hmem, (regionHasNaN_iff region).mpr hr⟩
  · intro hclaim
    rw [claimedInvalidThrow, List.any_eq_false] at hclaim
    rw [invalidRegionThrow, List.any_eq_false]
    intro region hmem
    have hreg := hclaim region hmem
    intro hcontra
    exact hreg (by simp [claimedInvalidRegion, hcontra])

/-- C7 amended witness: a fully-parsed non-negative region passes the check,
via the preserved direction of the original claim. -/
theorem invalid_region_check_amended_witness :
    invalidRegionThrow [[some 0, some 0, some 5, some 10]] = false :=
  (invalid_region_check_amended [[some 0, some 0, some 5, some 10]]).2 rfl

/-! ## Detection-to-region translator (`analyzeImage`) -/

/-- One detection object from the vision response JSON. `box_2d` is `none`
when the field is absent; otherwise it is the parsed array of numbers, of
any length. -/
structure Detection where
  label : String
  box_2d : Option (List ℚ)
  issue : Option String

/-- JS `Math.round` on a finite number: floor of `q + 1/2` (half rounds up). -/
def jsRound (q : ℚ) : ℤ := ⌊q + 1/2⌋

theorem jsRound_eq (q : ℚ) (z : ℤ) (h1 : (z : ℚ) ≤ q + 1/2) (h2 : q + 1/2 < z + 1) :
    jsRound q = z := by
  unfold jsRound
  rw [Int.floor_eq_iff]
  exact ⟨h1, by exact_mod_cast h2⟩

/-- The per-detection conversion in `analyzeImage`: the box array is
destructured into `yMin, xMin, yMax, xMax` (missing elements are
`undefined`), and each pixel value is `Math.round` of the scaled coordinate;
arithmetic on `undefined` yields `NaN`, modelled as `none`. -/
def translateDetection (w h : ℚ) (box : List ℚ) :
    Option ℤ × Option ℤ × Option ℤ × Option ℤ :=
  let yMin := box.get? 0
  let xMin := box.get? 1
  let yMax := box.get? 2
  let xMax := box.get? 3
  let px := xMin.map (fun q => jsRound (q / 1000 * w))
  let py := yMin.map (fun q => jsRound (q / 1000 * h))
  let pw :=
    match xMax, xMin with
    | some a, some b => some (jsRound ((a - b) / 1000 * w))
    | _, _ => none
  let ph :=
    match yMax, yMin with
    | some a, some b => some (jsRound ((a - b) / 1000 * h))
    | _, _ => none
  (px, py, pw, ph)

/-- The translation loop of `analyzeImage` over one batch: destructuring a
missing `box_2d` throws a `TypeError`, aborting the whole batch; otherwise
the detection is translated (malformed short boxes included, their missing
components becoming `NaN`) and the loop continues in order. -/
def analyzeRegions (w h : ℚ) :
    List Detection → Except String (List (Option ℤ × Option ℤ × Option ℤ × Option ℤ))
  | [] => Except.ok []
  | det :: rest =>
    match det.box_2d with
    | none => Except.error "TypeError"
    | some box =>
      match analyzeRegions w h rest with
      | Except.ok rs => Except.ok (translateDetection w h box :: rs)
      | Except.error e => Except.error e

/-- Modelled from the claim wording, for comparison with the code: drop every
detection missing a well-formed four-element box (with a logged warning) and
translate the remaining detections of the batch. -/
def analyzeRegionsClaimed (w h : ℚ) (dets : List Detection) :
    List (Option ℤ × Option ℤ × Option ℤ × Option ℤ) :=
  dets.filterMap
    (fun det =>
      match det.box_2d with
      | some box => if box.length = 4 then some (translateDetection w h box) else none
      | none => none)

/-- C4 counterexample: on a batch holding a 3-element box followed by a
well-formed box, the code emits the malformed detection as a region with a
`NaN` width instead of dropping it, and a detection with no box at all
aborts the whole batch. -/
theorem detection_drop_counterexample :
    (analyzeRegions 100 100
        [⟨"hand", some [0, 0, 500], none⟩, ⟨"face", some [0, 0, 1000, 1000], none⟩]
      = Except.ok
        [(some 0, some 0, none, some 50), (some 0, some 0, some 100, some 100)]) ∧
    (analyzeRegionsClaimed 100 100
        [⟨"hand", some [0, 0, 500], none⟩, ⟨"face", some [0, 0, 1000, 1000], none⟩]
      = [(some 0, some 0, some 100, some 100)]) ∧
    (analyzeRegions 100 100 [⟨"torso", none, none⟩, ⟨"face", some [0, 0, 1000, 1000], none⟩]
      = Except.error "TypeError") := by
  have hz : jsRound (0 : ℚ) = 0 := jsRound_eq _ _ (by norm_num) (by norm_num)
  have h50 : jsRound ((500 : ℚ) / 1000 * 100) = 50 :=
    jsRound_eq _ _ (by norm_num) (by norm_num)
  have h100 : jsRound (100 : ℚ) = 100 := jsRound_eq _ _ (by norm_num) (by norm_num)
  refine ⟨?_, ?_, rfl⟩
  · simp [analyzeRegions, translateDetection, hz, h50, h100]
  · simp [analyzeRegionsClaimed, translateDetection, hz, h100]

/-- C4 amended: the translator performs no well-formedness check: when every
detection of the batch has a box array (of any length), every detection is
translated 1:1 in order, malformed boxes yielding `NaN` components rather
than being dropped; and when any detection lacks a box altogether, the whole
batch aborts with a `TypeError`. -/
theorem detection_translation_amended (w h : ℚ) (dets : List Detection) :
    ((∀ det ∈ dets, det.box_2d ≠ none) →
      analyzeRegions w h dets
        = Except.ok (dets.map (fun det => translateDetection w h (det.box_2d.getD [])))) ∧
    ((∃ det ∈ dets, det.box_2d = none) →
      analyzeRegions w h dets = Except.error "TypeError") := by
  induction dets with
  | nil =>
    constructor
    · intro
      rfl
    · rintro ⟨det, hmem, _⟩
      cases hmem
  | cons det rest ih =>
    constructor
    · intro hall
      have hdet := hall det (List.mem_cons_self det rest)
      rcases hbox : det.box_2d with _ | box
      · exact absurd hbox hdet
      · have hrest := ih.1 (fun d hd => hall d (List.mem_cons_of_mem det hd))
        simp [analyzeRegions, hbox, hrest]
    · rintro ⟨d, hmem, hdnone⟩
      rcases List.mem_cons.mp hmem with heq | hmem2
      · subst heq
        simp [analyzeRegions, hdnone]
      · rcases hbox : det.box_2d with _ | box
        · simp [analyzeRegions, hbox]
        · have hrest := ih.2 ⟨d, hmem2, hdnone⟩
          simp [analyzeRegions, hbox, hrest]

/-- C4 amended witness: a batch of one well-formed detection translates to
`0,0,832,1216` on an 832×1216 canvas, via the no-drop characterization. -/
theorem detection_translation_amended_witness :
    analyzeRegions 832 1216 [⟨"face", some [0, 0, 1000, 1000], none⟩]
      = Except.ok [(some 0, some 0, some 832, some 1216)] := by
  have h := (detection_translation_amended 832 1216
    [⟨"face", some [0, 0, 1000, 1000], none⟩]).1
    (by
      intro det hd
      fin_cases hd
      simp)
  rw [h]
  have hz : jsRound (0 : ℚ) = 0 := jsRound_eq _ _ (by norm_num) (by norm_num)
  have hw : jsRound (832 : ℚ) = 832 := jsRound_eq _ _ (by norm_num) (by norm_num)
  have hh : jsRound (1216 : ℚ) = 1216 := jsRound_eq _ _ (by norm_num) (by norm_num)
  simp [translateDetection, hz, hw, hh]

/-! ## Director response unwrapping (`extractPng` and the director branch) -/

/-- A director endpoint response body: either bytes that are not a zip
archive (the AdmZip constructor throws on them), or an archive with named
entries. -/
inductive DirectorResponse where
  | raw (bytes : String)
  | archive (entries : List (String × String))
deriving DecidableEq

/-- The two unwrap failures: a non-archive body rejected by the archive
parser, and an archive with no png entry (`No PNG found in API response.`). -/
inductive UnwrapError where
  | badArchive
  | missingImage
deriving DecidableEq

/-- `extractPng` over the entries of a parsed archive: the first entry whose
name ends in `.png`, else the missing-image error. -/
def extractPngEntries (entries : List (String × String)) : Except UnwrapError String :=
  match entries.find? (fun e => e.fst.endsWith ".png") with
  | some e => Except.ok e.snd
  | none => Except.error UnwrapError.missingImage

/-- The director branch of `main`: `extractPng(result)` is called
unconditionally on the response, so a non-archive body fails in the archive
parser and there is no raw-bytes path. -/
def directorUnwrap : DirectorResponse → Except UnwrapError String
  | DirectorResponse.raw _ => Except.error UnwrapError.badArchive
  | DirectorResponse.archive entries => extractPngEntries entries

/-- Modelled from the claim wording, for comparison with the code: fall back
to treating the raw response bytes as the image when no archive entry is
found, raising the missing-image error only for an archive with no image
entry. -/
def directorUnwrapClaimed : DirectorResponse → Except UnwrapError String
  | DirectorResponse.raw bytes => Except.ok bytes
  | DirectorResponse.archive entries => extractPngEntries entries

/-- C9 counterexample: on a non-archive response the claimed fallback would
return the raw bytes, but the code fails in the archive parser — there is no
raw-bytes fallback in the director branch. -/
theorem director_fallback_counterexample :
    directorUnwrap (DirectorResponse.raw "IMG") = Except.error UnwrapError.badArchive ∧
    directorUnwrapClaimed (DirectorResponse.raw "IMG") = Except.ok "IMG" ∧
    directorUnwrap (DirectorResponse.raw "IMG")
      ≠ directorUnwrapClaimed (DirectorResponse.raw "IMG") := by
  refine ⟨rfl, rfl, ?_⟩
  intro hcontra
  simp [directorUnwrap, directorUnwrapClaimed] at hcontra

/-- C9 amended: the director branch always attempts archive extraction; the
missing-image error is raised exactly when the response is an archive none
of whose entries is a png (a non-archive response fails differently, with no
raw-bytes fallback). -/
theorem director_unwrap_amended (resp : DirectorResponse) :
    directorUnwrap resp = Except.error UnwrapError.missingImage ↔
      ∃ entries, resp = DirectorResponse.archive entries ∧
        ∀ e ∈ entries, e.fst.endsWith ".png" = false := by
  rcases resp with bytes | entries
  · constructor
    · intro hcontra
      simp [directorUnwrap] at hcontra
    · rintro ⟨es, hcontra, _⟩
      cases hcontra
  · constructor
    · intro hmiss
      refine ⟨entries, rfl, ?_⟩
      intro e hmem
      rcases hf : entries.find? (fun q => q.fst.endsWith ".png") with _ | q
      · have := List.find?_eq_none.mp hf e hmem
        simpa using this
      · exfalso
        simp [directorUnwrap, extractPngEntries, hf] at hmiss
    · rintro ⟨es, hes, hall⟩
      cases hes
      have hnone : entries.find? (fun q => q.fst.endsWith ".png") = none := by
        rw [List.find?_eq_none]
        intro x hx
        simp [hall x hx]
      simp [directorUnwrap, extractPngEntries, hnone]

end NovelAgent
